import Mathlib

/-!
Verification of `airflow/example_dags/example_params_ui_tutorial.py`.

The file under verification declares a DAG with a `params` dictionary (the
trigger-form parameter declarations) and a single task `show_params` that
inspects `dag_run.conf`: when no configuration was supplied it prints a
diagnostic and raises `AirflowSkipException`; otherwise it prints the
JSON serialization (`json.dumps(conf, indent=4)`) of the configuration.

We shallowly embed:
 * JSON values (`Json`) and the Python `json.dumps(obj, indent=4)` with its
   default `ensure_ascii=True` string escaping;
 * the `Param` declarations of the `params` dictionary of the DAG (their
   JSON-schema validation attributes: default, type, format, enum, const,
   minimum/maximum, minLength/maxLength; presentation-only attributes such
   as `title`, `description`, `section` and `custom_html_form` carry no
   validated semantics and are not part of the validation model, except
   where a claim refers to the text of a description);
 * the `show_params` task as a function from the supplied run configuration
   to a trace of events (print / raise-skip / raise-error), together with a
   state-passing interpretation of that trace.
-/

namespace ExampleParamsUITutorial

/-- JSON values, as found in a `DagRun.conf` dictionary and in `Param`
defaults of the DAG file (null, booleans, integers, strings, arrays,
objects). -/
inductive Json where
  | null : Json
  | bool (b : Bool) : Json
  | num (n : Int) : Json
  | str (s : String) : Json
  | arr (elems : List Json) : Json
  | obj (entries : List (String × Json)) : Json

/-- A run configuration (`DagRun.conf`): a finite key/value mapping,
embedded as an association list. -/
abbrev Conf : Type := List (String × Json)

/-- Lower-case hexadecimal digit, as produced by the percent-04x formatting
of escapes in `json.encoder`. -/
def hexDigit (n : Nat) : Char :=
  if n < 10 then Char.ofNat (48 + n) else Char.ofNat (87 + n)

/-- A six-character `\uXXXX` escape for code unit `n < 0x10000`. -/
def uEscape (n : Nat) : List Char :=
  ['\\', 'u', hexDigit (n / 4096 % 16), hexDigit (n / 256 % 16),
   hexDigit (n / 16 % 16), hexDigit (n % 16)]

/-- Escaping of one character as in `json.encoder.py_encode_basestring_ascii`
(the default `ensure_ascii=True` of `json.dumps`): backslash, double quote
and the short control escapes get two-character escapes, printable ASCII is
kept verbatim, everything else becomes `\uXXXX` (a surrogate pair for
characters beyond the basic multilingual plane). -/
def escapeChar (c : Char) : List Char :=
  if c = '\\' then ['\\', '\\']
  else if c = '"' then ['\\', '"']
  else if c = '\n' then ['\\', 'n']
  else if c = '\t' then ['\\', 't']
  else if c = '\r' then ['\\', 'r']
  else if c = '\x08' then ['\\', 'b']
  else if c = '\x0c' then ['\\', 'f']
  else if 0x20 ≤ c.toNat ∧ c.toNat ≤ 0x7e then [c]
  else if c.toNat < 0x10000 then uEscape c.toNat
  else uEscape (0xd800 + (c.toNat - 0x10000) / 1024) ++
       uEscape (0xdc00 + (c.toNat - 0x10000) % 1024)

/-- A JSON string literal: the escaped characters between double quotes. -/
def encodeString (s : String) : List Char :=
  '"' :: (s.data.map escapeChar).flatten ++ ['"']

/-- The indentation produced by `json.dumps(..., indent=4)` at nesting
depth `lvl`. -/
def ind (lvl : Nat) : List Char := List.replicate (4 * lvl) ' '

mutual

/-- Serialization `json.dumps(v, indent=4)` of a single JSON value whose closing bracket
sits at nesting depth `lvl` (the top-level call uses `lvl = 0`).  With an
`indent` argument the item separator is `",\n"` and the key separator
`": "`. -/
def dumpsVal : Json → Nat → List Char
  | Json.null, _ => "null".data
  | Json.bool true, _ => "true".data
  | Json.bool false, _ => "false".data
  | Json.num n, _ => (toString n).data
  | Json.str s, _ => encodeString s
  | Json.arr [], _ => "[]".data
  | Json.arr (x :: xs), lvl =>
      ['[', '\n'] ++ List.intercalate [',', '\n'] (dumpsItems (x :: xs) (lvl + 1)) ++
        ['\n'] ++ ind lvl ++ [']']
  | Json.obj [], _ => ['\x7b', '\x7d']
  | Json.obj (kv :: kvs), lvl =>
      ['\x7b', '\n'] ++ List.intercalate [',', '\n'] (dumpsEntries (kv :: kvs) (lvl + 1)) ++
        ['\n'] ++ ind lvl ++ ['\x7d']

/-- The rendered items of a JSON array, each indented at depth `lvl`. -/
def dumpsItems : List Json → Nat → List (List Char)
  | [], _ => []
  | x :: xs, lvl => (ind lvl ++ dumpsVal x lvl) :: dumpsItems xs lvl

/-- The rendered `"key": value` entries of a JSON object, each indented at
depth `lvl`. -/
def dumpsEntries : List (String × Json) → Nat → List (List Char)
  | [], _ => []
  | (k, v) :: kvs, lvl =>
      (ind lvl ++ encodeString k ++ ':' :: ' ' :: dumpsVal v lvl) :: dumpsEntries kvs lvl

end

/-- Serialization `json.dumps(conf, indent=4)` of a whole configuration dictionary. -/
def dumps (conf : Conf) : List Char := dumpsVal (Json.obj conf) 0

/-! Model of the `params` declarations of the DAG.

An `airflow.models.param.Param` declaration, restricted to the JSON-schema
validation attributes that occur in the DAG file.  A Python `type=` argument
that is a single string is embedded as a one-element list (JSON schema treats
`"t"` and `["t"]` alike); `none` means the attribute was not given. -/
structure Param where
  default : Json
  type : Option (List String) := none
  format : Option String := none
  enum : Option (List Json) := none
  const : Option Json := none
  minimum : Option Int := none
  maximum : Option Int := none
  minLength : Option Nat := none
  maxLength : Option Nat := none

/-- An entry of the `params` dictionary: either a bare default value
(auto-detected, treated as optional by Airflow) or an explicit `Param`. -/
inductive ParamsEntry where
  | plain (v : Json) : ParamsEntry
  | decl (p : Param) : ParamsEntry

/-- Declaration `"most_loved_number": Param(42, type="integer", ...)`. -/
def most_loved_number : Param :=
  { default := Json.num 42, type := some ["integer"] }

/-- The enum values of `pick_one`: `[f"value {i}" for i in range(16, 64)]`. -/
def pick_one_enum_values : List String :=
  (List.range' 16 48).map (fun i => "value " ++ toString i)

/-- Declaration `"pick_one": Param("value 42", type="string", ..., enum=[f"value {i}" for i in range(16, 64)])`. -/
def pick_one : Param :=
  { default := Json.str "value 42", type := some ["string"],
    enum := some (pick_one_enum_values.map Json.str) }

/-- Declaration `"bool": Param(True, type="boolean", ...)`. -/
def bool : Param :=
  { default := Json.bool true, type := some ["boolean"] }

/-- Declaration `"date_time": Param(f"{datetime.date.today()}T{datetime.time(hour=12, minute=17, second=00)}+00:00",
type="string", format="date-time", ...)`; the default depends on the current
date, so it is a function of `today` (the rendering of `datetime.date.today()`).
`f"{datetime.time(hour=12, minute=17, second=00)}"` renders as `12:17:00`. -/
def date_time (today : String) : Param :=
  { default := Json.str (today ++ "T" ++ "12:17:00" ++ "+00:00"),
    type := some ["string"], format := some "date-time" }

/-- Declaration `"date": Param(f"{datetime.date.today()}", type="string", format="date", ...)`. -/
def date (today : String) : Param :=
  { default := Json.str today, type := some ["string"], format := some "date" }

/-- Declaration `"time": Param(f"{datetime.time(hour=12, minute=13, second=14)}",
type=["string", "null"], format="time", ...)`; the default renders as `12:13:14`. -/
def time : Param :=
  { default := Json.str "12:13:14", type := some ["string", "null"],
    format := some "time" }

/-- Declaration `"required_field": Param("You can not trigger if no text is given here!", type="string", ...)`. -/
def required_field : Param :=
  { default := Json.str "You can not trigger if no text is given here!",
    type := some ["string"] }

/-- Declaration `"optional_field": Param("optional text, you can trigger also w/o text", type=["null", "string"], ...)`. -/
def optional_field : Param :=
  { default := Json.str "optional text, you can trigger also w/o text",
    type := some ["null", "string"] }

/-- Declaration `"checked_text": Param("length-checked-field", type="string", ..., minLength=10, maxLength=20, ...)`. -/
def checked_text : Param :=
  { default := Json.str "length-checked-field", type := some ["string"],
    minLength := some 10, maxLength := some 20 }

/-- The `description_html` text of the `checked_text` parameter, verbatim
from the DAG file (a presentation-only attribute; it speaks of "between 10
and 30 characters" although the declared `maxLength` is 20). -/
def checked_text_description_html : String :=
  "This field is required. And you need to provide something between 10 and 30\x0a            characters. See the\x0a            <a href=\x27https://json-schema.org/understanding-json-schema/reference/string.html\x27>\x0a            JSON schema description (string)</a> in for more details"

/-- Declaration `"checked_number": Param(100, type="number", ..., minimum=64, maximum=128, ...)`. -/
def checked_number : Param :=
  { default := Json.num 100, type := some ["number"],
    minimum := some 64, maximum := some 128 }

/-- Declaration `"object": Param({"key": "value"}, type=["object", "null"], ...)`. -/
def object : Param :=
  { default := Json.obj [("key", Json.str "value")],
    type := some ["object", "null"] }

/-- Declaration `"hidden_secret_field": Param("constant value", const="constant value")`. -/
def hidden_secret_field : Param :=
  { default := Json.str "constant value", const := some (Json.str "constant value") }

/-- Declaration `"color_picker": Param("#FF8800", type="string", ...)` (its
`custom_html_form` is a presentation-only HTML template). -/
def color_picker : Param :=
  { default := Json.str "#FF8800", type := some ["string"] }

/-- The DAG's `params` dictionary, in declaration order.  The defaults of
`date_time` and `date` depend on `datetime.date.today()`, passed in as
`today`. -/
def dag_params (today : String) : List (String × ParamsEntry) :=
  [("x", ParamsEntry.plain (Json.num 3)),
   ("text", ParamsEntry.plain (Json.str "Hello World!")),
   ("flag", ParamsEntry.plain (Json.bool false)),
   ("a_simple_list", ParamsEntry.plain (Json.arr
      [Json.str "one", Json.str "two", Json.str "three",
       Json.str "actually one value is made per line"])),
   ("most_loved_number", ParamsEntry.decl most_loved_number),
   ("pick_one", ParamsEntry.decl pick_one),
   ("bool", ParamsEntry.decl bool),
   ("date_time", ParamsEntry.decl (date_time today)),
   ("date", ParamsEntry.decl (date today)),
   ("time", ParamsEntry.decl time),
   ("required_field", ParamsEntry.decl required_field),
   ("optional_field", ParamsEntry.decl optional_field),
   ("checked_text", ParamsEntry.decl checked_text),
   ("checked_number", ParamsEntry.decl checked_number),
   ("object", ParamsEntry.decl object),
   ("hidden_secret_field", ParamsEntry.decl hidden_secret_field),
   ("color_picker", ParamsEntry.decl color_picker)]

/-- The declared parameter names, in declaration order. -/
def declaredParamNames (today : String) : List String :=
  (dag_params today).map Prod.fst

/-- JSON-schema bound checks on a parameter's own default: `minimum` /
`maximum` constrain a numeric default, `minLength` / `maxLength` constrain
the length of a string default; an absent bound or a default of another
shape constrains nothing. -/
def defaultWithinBounds (p : Param) : Bool :=
  (match p.minimum, p.default with
   | some lo, Json.num n => decide (lo ≤ n)
   | _, _ => true) &&
  (match p.maximum, p.default with
   | some hi, Json.num n => decide (n ≤ hi)
   | _, _ => true) &&
  (match p.minLength, p.default with
   | some lo, Json.str s => decide (lo ≤ s.length)
   | _, _ => true) &&
  (match p.maxLength, p.default with
   | some hi, Json.str s => decide (s.length ≤ hi)
   | _, _ => true)

/-! Model of the `show_params` task.

The task body is

```
ti: TaskInstance = kwargs["ti"]
dag_run: DagRun = ti.dag_run
if not dag_run.conf:
    print("Uups, no parameters supplied as DagRun.conf, was the trigger w/o form?")
    raise AirflowSkipException("No DagRun.conf parameters supplied.")
print(f"This DAG was triggered with the following parameters:\n{json.dumps(dag_run.conf, indent=4)}")
```

`dag_run.conf` may be `None` or a dictionary, so the supplied configuration
is an `Option Conf`; the Python `not conf` is true exactly when it is `None`
or the empty dictionary.  Execution is embedded as the trace of observable
events the body performs, in order: each `print` and each raised
exception. -/

/-- Python truthiness of `dag_run.conf`: `False` for `None` and for an
empty dictionary. -/
def pyTruthy : Option Conf → Bool
  | none => false
  | some c => !c.isEmpty

/-- An observable event of a task body: a `print`ed text, a raised
`AirflowSkipException`, or any other raised exception (which would fail the
task). -/
inductive Event where
  | print (text : List Char) : Event
  | raiseSkip (msg : String) : Event
  | raiseError (msg : String) : Event
deriving Repr, DecidableEq

/-- The diagnostic printed on the skip path. -/
def noConfDiag : List Char :=
  "Uups, no parameters supplied as DagRun.conf, was the trigger w/o form?".data

/-- The message of the raised `AirflowSkipException`. -/
def skipExcMsg : String := "No DagRun.conf parameters supplied."

/-- The announcement line printed when a configuration is present; the
serialized configuration is embedded in it by the f-string. -/
def announceText (conf : Conf) : List Char :=
  "This DAG was triggered with the following parameters:\n".data ++ dumps conf

/-- The trace of events performed by the `show_params` body on the supplied
configuration: on a falsy configuration, the diagnostic is printed and then
the skip exception is raised (ending the body); otherwise the single
announcement line with the serialized configuration is printed. -/
def show_params (conf : Option Conf) : List Event :=
  if pyTruthy conf then
    [Event.print (announceText (conf.getD []))]
  else
    [Event.print noConfDiag, Event.raiseSkip skipExcMsg]

/-- Is the event a raised `AirflowSkipException`? -/
def isRaiseSkip : Event → Bool
  | Event.raiseSkip _ => true
  | _ => false

/-- Is the event a raised exception other than `AirflowSkipException`? -/
def isRaiseError : Event → Bool
  | Event.raiseError _ => true
  | _ => false

/-- How a run of the task is marked. -/
inductive Outcome where
  | success : Outcome
  | skipped : Outcome
  | failed : Outcome
deriving Repr, DecidableEq

/-- The outcome of a task run, from its trace: an uncaught
`AirflowSkipException` marks the run skipped, any other uncaught exception
marks it failed, otherwise it succeeded. -/
def outcome (conf : Option Conf) : Outcome :=
  if (show_params conf).any isRaiseError then Outcome.failed
  else if (show_params conf).any isRaiseSkip then Outcome.skipped
  else Outcome.success

/-- All text printed by a run of the task, in order. -/
def printedText (conf : Option Conf) : List Char :=
  ((show_params conf).filterMap
    (fun e => match e with
      | Event.print t => some t
      | _ => none)).flatten

/-- The task-visible state: the supplied run configuration, the DAG's
parameter declarations, and the standard output written so far. -/
structure TaskState where
  dagRunConf : Option Conf
  dagParams : List (String × ParamsEntry)
  stdout : List (List Char)

/-- The effect of one event on the task-visible state: `print` appends a
line to standard output; raising an exception changes nothing by itself. -/
def applyEvent (s : TaskState) : Event → TaskState
  | Event.print t => { s with stdout := s.stdout ++ [t] }
  | Event.raiseSkip _ => s
  | Event.raiseError _ => s

/-- Running the `show_params` body over the task-visible state. -/
def runShowParams (s : TaskState) : TaskState :=
  (show_params s.dagRunConf).foldl applyEvent s

/-! Supporting lemmas. -/

/-- A member of a list is a member of the list interspersed with a
separator. -/
theorem mem_intersperse_of_mem {α : Type} {x : α} (sep : α) {L : List α}
    (h : x ∈ L) : x ∈ L.intersperse sep := by
  induction L with
  | nil => simp at h
  | cons a t ih =>
    cases t with
    | nil => simpa using h
    | cons b t2 =>
      rw [List.intersperse_cons_cons]
      rcases List.mem_cons.mp h with rfl | h2
      · exact List.mem_cons_self _ _
      · exact List.mem_cons_of_mem _ (List.mem_cons_of_mem _ (ih h2))

/-- A member of a list of pieces is a contiguous segment of the
separator-joined concatenation of the pieces. -/
theorem infix_of_mem_intercalate {α : Type} {x sep : List α}
    {L : List (List α)} (hx : x ∈ L) : x <:+: List.intercalate sep L := by
  rw [List.intercalate]
  exact List.infix_of_mem_flatten (mem_intersperse_of_mem sep hx)

/-- The rendered entries of an object are exactly the map of the
entry-rendering function over the key/value pairs. -/
theorem dumpsEntries_eq_map (l : List (String × Json)) (lvl : Nat) :
    dumpsEntries l lvl =
      l.map (fun kv => ind lvl ++ encodeString kv.1 ++ ':' :: ' ' :: dumpsVal kv.2 lvl) := by
  induction l with
  | nil => simp [dumpsEntries]
  | cons kv t ih =>
    cases kv
    simp [dumpsEntries, ih]

/-- The rendered `"key": value` entry of each pair of a nonempty
configuration is a contiguous segment of `json.dumps(conf, indent=4)`. -/
theorem entry_infix_dumps {kv : String × Json} {c : String × Json} {cs : List (String × Json)}
    (h : kv ∈ c :: cs) :
    ind 1 ++ encodeString kv.1 ++ ':' :: ' ' :: dumpsVal kv.2 1 <:+: dumps (c :: cs) := by
  have hmem : ind 1 ++ encodeString kv.1 ++ ':' :: ' ' :: dumpsVal kv.2 1 ∈
      dumpsEntries (c :: cs) 1 := by
    rw [dumpsEntries_eq_map]
    exact List.mem_map.mpr ⟨kv, h, rfl⟩
  have h1 : ind 1 ++ encodeString kv.1 ++ ':' :: ' ' :: dumpsVal kv.2 1 <:+:
      List.intercalate [',', '\n'] (dumpsEntries (c :: cs) 1) :=
    infix_of_mem_intercalate hmem
  have h2 : List.intercalate [',', '\n'] (dumpsEntries (c :: cs) 1) <:+: dumps (c :: cs) := by
    rw [dumps, dumpsVal]
    exact ⟨['\x7b', '\n'], ['\n'] ++ ind 0 ++ ['\x7d'], by simp⟩
  exact h1.trans h2

/-! Claim theorems. -/

/-- Claim C1: for every run configuration, the `show_params` task raises the
skip signal (`AirflowSkipException`) if and only if the supplied
configuration is absent (`None`) or empty; in that case the run is marked
skipped rather than failed, and in every other case the task completes
without raising any error. -/
theorem C1_skip_signal_iff_conf_absent_or_empty (conf : Option Conf) :
    ((show_params conf).any isRaiseSkip = !pyTruthy conf) ∧
    (pyTruthy conf = false ↔ conf = none ∨ conf = some []) ∧
    outcome conf = (if pyTruthy conf then Outcome.success else Outcome.skipped) ∧
    outcome conf ≠ Outcome.failed := by
  cases conf with
  | none => simp [show_params, outcome, pyTruthy, isRaiseSkip, isRaiseError]
  | some c =>
    cases c with
    | nil => simp [show_params, outcome, pyTruthy, isRaiseSkip, isRaiseError]
    | cons kv t => simp [show_params, outcome, pyTruthy, isRaiseSkip, isRaiseError]

/-- Claim C2: for every non-empty run configuration, the text emitted by the
`show_params` task is the announcement line with the JSON serialization of
the configuration embedded, and it contains, as a contiguous segment, the
rendered form of every key and of every value of the configuration. -/
theorem C2_output_contains_every_key_and_value (conf : Conf) (hne : conf ≠ []) :
    printedText (some conf) =
      "This DAG was triggered with the following parameters:\n".data ++ dumps conf ∧
    ∀ kv ∈ conf, encodeString kv.1 <:+: printedText (some conf) ∧
      dumpsVal kv.2 1 <:+: printedText (some conf) := by
  cases conf with
  | nil => exact absurd rfl hne
  | cons c cs =>
    have hpt : printedText (some (c :: cs)) = announceText (c :: cs) := by
      simp [printedText, show_params, pyTruthy]
    refine ⟨by rw [hpt]; rfl, ?_⟩
    intro kv hkv
    have hentry := entry_infix_dumps hkv
    have hd : dumps (c :: cs) <:+: printedText (some (c :: cs)) := by
      rw [hpt, announceText]
      exact ⟨"This DAG was triggered with the following parameters:\n".data, [], by simp⟩
    have hk : encodeString kv.1 <:+:
        ind 1 ++ encodeString kv.1 ++ ':' :: ' ' :: dumpsVal kv.2 1 :=
      ⟨ind 1, ':' :: ' ' :: dumpsVal kv.2 1, by simp⟩
    have hv : dumpsVal kv.2 1 <:+:
        ind 1 ++ encodeString kv.1 ++ ':' :: ' ' :: dumpsVal kv.2 1 :=
      ⟨ind 1 ++ encodeString kv.1 ++ [':', ' '], [], by simp⟩
    exact ⟨hk.trans (hentry.trans hd), hv.trans (hentry.trans hd)⟩

/-- Claim C2, witness: the theorem applied to the concrete configuration
`[("a", 1)]`. -/
theorem C2_output_contains_every_key_and_value_witness :
    (([("a", Json.num 1)] : Conf) ≠ []) ∧
    (printedText (some [("a", Json.num 1)]) =
      "This DAG was triggered with the following parameters:\n".data ++
        dumps [("a", Json.num 1)] ∧
     ∀ kv ∈ ([("a", Json.num 1)] : Conf),
       encodeString kv.1 <:+: printedText (some [("a", Json.num 1)]) ∧
       dumpsVal kv.2 1 <:+: printedText (some [("a", Json.num 1)])) :=
  ⟨by simp, C2_output_contains_every_key_and_value [("a", Json.num 1)] (by simp)⟩

/-- Claim C3: whenever the `show_params` task takes the skip path (the
supplied configuration is absent or empty), its trace is exactly: first the
diagnostic about missing `DagRun.conf` parameters is printed, then the skip
exception is raised; and the outcome is skipped. -/
theorem C3_diagnostic_printed_before_skip (conf : Option Conf)
    (h : pyTruthy conf = false) :
    show_params conf = [Event.print noConfDiag, Event.raiseSkip skipExcMsg] ∧
    outcome conf = Outcome.skipped := by
  have ht : show_params conf = [Event.print noConfDiag, Event.raiseSkip skipExcMsg] := by
    simp [show_params, h]
  exact ⟨ht, by simp [outcome, ht, isRaiseSkip, isRaiseError]⟩

/-- Claim C3, witness: the theorem applied to the absent configuration. -/
theorem C3_diagnostic_printed_before_skip_witness :
    pyTruthy (none : Option Conf) = false ∧
    (show_params none = [Event.print noConfDiag, Event.raiseSkip skipExcMsg] ∧
     outcome none = Outcome.skipped) :=
  ⟨rfl, C3_diagnostic_printed_before_skip none rfl⟩

/-- Claim C4: the constant-valued parameter `hidden_secret_field` satisfies
the constant-parameter invariant: its declared default equals its declared
`const` value, both being the string `"constant value"`. -/
theorem C4_hidden_secret_field_const_invariant :
    hidden_secret_field.default = Json.str "constant value" ∧
    hidden_secret_field.const = some (Json.str "constant value") ∧
    hidden_secret_field.const = some hidden_secret_field.default :=
  ⟨rfl, rfl, rfl⟩

/-- Claim C5: every bounded parameter's default satisfies its own declared
bounds: the default of `checked_number` (100) lies between its minimum 64
and its maximum 128 inclusive, and the length of the default string of
`checked_text` (`"length-checked-field"`, of length 20) lies between its
`minLength` 10 and its `maxLength` 20 inclusive. -/
theorem C5_bounded_defaults_satisfy_bounds :
    (checked_number.default = Json.num 100 ∧ checked_number.minimum = some 64 ∧
     checked_number.maximum = some 128 ∧ defaultWithinBounds checked_number = true) ∧
    (checked_text.default = Json.str "length-checked-field" ∧
     checked_text.minLength = some 10 ∧ checked_text.maxLength = some 20 ∧
     10 ≤ "length-checked-field".length ∧ "length-checked-field".length ≤ 20 ∧
     defaultWithinBounds checked_text = true) :=
  ⟨⟨rfl, rfl, rfl, by decide⟩, ⟨rfl, rfl, rfl, by decide, by decide, by decide⟩⟩

/-- Claim C6: the enumerated parameter `pick_one` satisfies enumeration
membership: its default `"value 42"` is an element of its declared enum
list, and that list consists exactly of the strings `"value i"` for the
integers `i` from 16 to 63. -/
theorem C6_pick_one_default_in_enum :
    pick_one.default = Json.str "value 42" ∧
    pick_one.enum = some (pick_one_enum_values.map Json.str) ∧
    "value 42" ∈ pick_one_enum_values ∧
    ∀ s : String, s ∈ pick_one_enum_values ↔
      ∃ i : Nat, 16 ≤ i ∧ i < 64 ∧ s = "value " ++ toString i := by
  have hiff : ∀ s : String, s ∈ pick_one_enum_values ↔
      ∃ i : Nat, 16 ≤ i ∧ i < 64 ∧ s = "value " ++ toString i := by
    intro s
    rw [pick_one_enum_values]
    constructor
    · intro hs
      rcases List.mem_map.mp hs with ⟨i, hi, rfl⟩
      rcases List.mem_range'_1.mp hi with ⟨h1, h2⟩
      exact ⟨i, h1, by omega, rfl⟩
    · rintro ⟨i, h1, h2, rfl⟩
      exact List.mem_map.mpr ⟨i, List.mem_range'_1.mpr ⟨h1, by omega⟩, rfl⟩
  exact ⟨rfl, rfl, (hiff "value 42").mpr ⟨42, by omega, by omega, by decide⟩, hiff⟩

/-- Claim C7: the `show_params` task has no side effects beyond its emitted
output: running it leaves the run configuration and the parameter
declarations of the task-visible state unchanged and only appends to
standard output (also on the skip path). -/
theorem C7_no_side_effects_beyond_output (s : TaskState) :
    (runShowParams s).dagRunConf = s.dagRunConf ∧
    (runShowParams s).dagParams = s.dagParams ∧
    ∃ extra, (runShowParams s).stdout = s.stdout ++ extra := by
  rw [runShowParams]
  cases h : pyTruthy s.dagRunConf with
  | false =>
    refine ⟨?_, ?_, ⟨[noConfDiag], ?_⟩⟩ <;> simp [show_params, h, applyEvent]
  | true =>
    refine ⟨?_, ?_, ⟨[announceText (s.dagRunConf.getD [])], ?_⟩⟩ <;>
      simp [show_params, h, applyEvent]

/-- Claim C8: the seventeen declared parameter names of the DAG's `params`
dictionary are pairwise distinct (for any value of `today`, on which two
date defaults depend). -/
theorem C8_param_names_pairwise_distinct (today : String) :
    declaredParamNames today =
      ["x", "text", "flag", "a_simple_list", "most_loved_number", "pick_one", "bool",
       "date_time", "date", "time", "required_field", "optional_field", "checked_text",
       "checked_number", "object", "hidden_secret_field", "color_picker"] ∧
    (declaredParamNames today).Nodup ∧ (declaredParamNames today).length = 17 := by
  have h : declaredParamNames today =
      ["x", "text", "flag", "a_simple_list", "most_loved_number", "pick_one", "bool",
       "date_time", "date", "time", "required_field", "optional_field", "checked_text",
       "checked_number", "object", "hidden_secret_field", "color_picker"] := rfl
  refine ⟨h, ?_, ?_⟩
  · rw [h]; decide
  · rw [h]; rfl

/-- Claim C9: the `show_params` task is deterministic in the supplied
configuration: two task states whose run configurations are equal produce
the same trace, the same printed text and the same outcome. -/
theorem C9_deterministic_in_conf (s1 s2 : TaskState)
    (h : s1.dagRunConf = s2.dagRunConf) :
    show_params s1.dagRunConf = show_params s2.dagRunConf ∧
    printedText s1.dagRunConf = printedText s2.dagRunConf ∧
    outcome s1.dagRunConf = outcome s2.dagRunConf := by
  rw [h]
  exact ⟨rfl, rfl, rfl⟩

/-- Claim C9, witness: the theorem applied to two concrete states that agree
on the configuration but differ in the rest of the state. -/
theorem C9_deterministic_in_conf_witness :
    (TaskState.mk (some [("a", Json.num 1)]) [] []).dagRunConf =
      (TaskState.mk (some [("a", Json.num 1)]) (dag_params "2022-03-04") [['!']]).dagRunConf ∧
    (show_params (TaskState.mk (some [("a", Json.num 1)]) [] []).dagRunConf =
       show_params (TaskState.mk (some [("a", Json.num 1)])
         (dag_params "2022-03-04") [['!']]).dagRunConf ∧
     printedText (TaskState.mk (some [("a", Json.num 1)]) [] []).dagRunConf =
       printedText (TaskState.mk (some [("a", Json.num 1)])
         (dag_params "2022-03-04") [['!']]).dagRunConf ∧
     outcome (TaskState.mk (some [("a", Json.num 1)]) [] []).dagRunConf =
       outcome (TaskState.mk (some [("a", Json.num 1)])
         (dag_params "2022-03-04") [['!']]).dagRunConf) :=
  ⟨rfl, C9_deterministic_in_conf _ _ rfl⟩

/-- Claim C10: the default of `checked_text` sits exactly on its declared
upper bound: `"length-checked-field"` has length exactly 20, which equals
the declared `maxLength` of 20 (not the 30 mentioned in the human-readable
description of the parameter), so appending any character to the default
would exceed the bound. -/
theorem C10_checked_text_default_at_max_length :
    checked_text.default = Json.str "length-checked-field" ∧
    "length-checked-field".length = 20 ∧
    checked_text.maxLength = some 20 ∧
    checked_text.maxLength ≠ some 30 ∧
    (∀ c : Char, 20 < ("length-checked-field".push c).length) ∧
    "between 10 and 30".data <:+: checked_text_description_html.data := by
  refine ⟨rfl, rfl, rfl, by decide, ?_, by decide⟩
  intro c
  rw [String.length_push]
  decide

end ExampleParamsUITutorial
